import Mathlib

/-!
Verification of the observability pipeline of the `mkit_input_voucher` service:
the request middlewares (`src/core/middlewares.py`), the exception handlers
(`src/core/exceptions.py`), the application wiring (`src/main.py`) and the
metrics collector (`src/infra/mlog/utils.py`), shallowly embedded in Lean.

Modelling conventions:
* Durations are measured in ticks of 0.01 ms, so that the Python format
  string `f"{duration:.2f}ms"` becomes an exact computation on naturals.
* Python runtime values that flow through the pipeline (header values,
  context entries, metric values) are modelled by the flat type `PyVal`;
  the only dict nesting the code builds (error envelopes whose `context`
  field is itself a dict) is modelled by the one-level type `JV`.
* `uuid4()` and clock reads are modelled as explicit parameters.
-/

/-- A scalar Python runtime value as it occurs in this code base:
a string or an integer-like number. -/
inductive PyVal where
  | pstr (s : String)
  | pint (n : Int)
  deriving DecidableEq, Repr

/-- A JSON field value inside the error envelope built by the exception
handlers: either a scalar or a flat dict (the `context` mapping). -/
inductive JV where
  | prim (v : PyVal)
  | dict (m : List (String × PyVal))
  deriving DecidableEq, Repr

/-- One metric sample, `{"value": ..., "timestamp": ...}` as appended by
`MetricsCollector.__call__` (`src/infra/mlog/utils.py`). -/
structure Sample where
  value : PyVal
  timestamp : Nat
  deriving DecidableEq, Repr

/-- The part of a loguru message record that `MetricsCollector.__call__`
inspects: `record["level"].name`, `record["extra"]`, `record["time"]`. -/
structure Record where
  levelName : String
  extra : List (String × PyVal)
  time : Nat
  deriving DecidableEq, Repr

/-- Appending to a `collections.deque(maxlen := m)`: the new element goes to
the back, and the oldest (front) elements are discarded when the length
would exceed `m`. -/
def dequeAppend (maxlen : Nat) (q : List Sample) (x : Sample) : List Sample :=
  let q' := q ++ [x]
  if maxlen < q'.length then q'.drop (q'.length - maxlen) else q'

/-- Update an association list at key `k` with `f`, inserting `f []` when the
key is absent: this is `defaultdict(lambda: deque(...))` followed by a
mutation of the entry. -/
def assocUpdate (m : List (PyVal × List Sample)) (k : PyVal)
    (f : List Sample → List Sample) : List (PyVal × List Sample) :=
  match m with
  | [] => [(k, f [])]
  | (k', v) :: rest =>
      if k' = k then (k', f v) :: rest else (k', v) :: assocUpdate rest k f

/-- `MetricsCollector` (`src/infra/mlog/utils.py`): bounded per-name sample
store; `max_metrics_per_type` defaults to 10000 in the source. -/
structure MetricsCollector where
  max_metrics_per_type : Nat
  metrics : List (PyVal × List Sample)
  deriving DecidableEq, Repr

/-- `MetricsCollector.__init__` with the store empty. -/
def MetricsCollector.init (maxPerType : Nat) : MetricsCollector :=
  { max_metrics_per_type := maxPerType, metrics := [] }

/-- `MetricsCollector.__call__`: ignore the message unless its level is
`METRIC`; if the extra mapping has entries under both `metric_name` and
`value`, append `{"value": ..., "timestamp": ...}` to that name's bounded
deque. The numeric type of `value` is not checked by the code. -/
def MetricsCollector.call (c : MetricsCollector) (msg : Record) :
    MetricsCollector :=
  if msg.levelName ≠ "METRIC" then c
  else
    match msg.extra.lookup "metric_name", msg.extra.lookup "value" with
    | some name, some v =>
        { c with
          metrics := assocUpdate c.metrics name
            (fun q => dequeAppend c.max_metrics_per_type q
              { value := v, timestamp := msg.time }) }
    | _, _ => c

/-- Feed a list of log messages to the collector in order. -/
def recordAll (c : MetricsCollector) (msgs : List Record) : MetricsCollector :=
  msgs.foldl MetricsCollector.call c

/-- The METRIC-level message that `logger.bind(metric_name=..., value=...)
.log("METRIC", ...)` produces, as seen by the collector sink. -/
def metricMsg (name : PyVal) (vt : PyVal × Nat) : Record :=
  { levelName := "METRIC"
    extra := [("metric_name", name), ("value", vt.1)]
    time := vt.2 }

/-- The request data read by this code: HTTP method, URL path, headers
(keys normalized to lower case, as Starlette's case-insensitive `Headers`
lookup does), and the transport peer address `request.client.host`
(`none` when `request.client` is `None`). -/
structure RequestInfo where
  method : String
  path : String
  headers : List (String × String)
  client : Option String
  deriving DecidableEq, Repr

/-- `request.headers.get(k)`: `none` models an absent header. -/
def headerGet (req : RequestInfo) (k : String) : Option String :=
  req.headers.lookup k

/-- Python `s.split(",")[0]`: the prefix of `s` before the first comma, or
all of `s` when it has none (Python's `split` always yields at least one
piece). Defined over the character list so the kernel can evaluate it. -/
def pyFirstToken (s : String) : String :=
  ⟨s.data.takeWhile (fun c => c ≠ ',')⟩

/-- Python `s.strip()`: remove leading and trailing whitespace. Defined
over the character list so the kernel can evaluate it. -/
def pyStrip (s : String) : String :=
  ⟨((s.data.dropWhile Char.isWhitespace).reverse.dropWhile
      Char.isWhitespace).reverse⟩

/-- `ClientInfoMiddleware._get_ip` (`src/core/middlewares.py`): the walrus
conditions `if forwarded := ...` and `if real := ...` test Python
truthiness of the header value, i.e. present-and-nonempty; the first
branch then returns the first comma token stripped, even when that token
is empty. -/
def ClientInfoMiddleware.get_ip (req : RequestInfo) : String :=
  let forwarded := (headerGet req "x-forwarded-for").getD ""
  if forwarded ≠ "" then
    pyStrip (pyFirstToken forwarded)
  else
    let real := (headerGet req "x-real-ip").getD ""
    if real ≠ "" then real
    else (req.client).getD "unknown"

/-- `request.headers.get("user-agent", "unknown")`. -/
def ClientInfoMiddleware.get_user_agent (req : RequestInfo) : String :=
  (headerGet req "user-agent").getD "unknown"

/-- The client-IP precedence exactly as claim C5 words it: the first
comma-separated token of `X-Forwarded-For`, trimmed, is used when that
header is present and the *token* is non-empty; else `X-Real-IP`
verbatim whenever it is *present*; else the peer address; else
`"unknown"`. Written from the claim, to be compared with
`ClientInfoMiddleware.get_ip`. -/
def client_ip_claimed (req : RequestInfo) : String :=
  let tok :=
    match headerGet req "x-forwarded-for" with
    | some fwd => pyStrip (pyFirstToken fwd)
    | none => ""
  if (headerGet req "x-forwarded-for").isSome ∧ tok ≠ "" then tok
  else
    match headerGet req "x-real-ip" with
    | some real => real
    | none => (req.client).getD "unknown"

/-- The client-IP precedence as amended: the `X-Forwarded-For` branch is
taken whenever that header is present and non-empty (Python truthiness of
the whole header value), and then yields the first comma token trimmed even
if that token is empty; the `X-Real-IP` branch likewise requires the header
to be non-empty, not merely present. Written from the amended claim, to be
compared with `ClientInfoMiddleware.get_ip`. -/
def client_ip_amended (req : RequestInfo) : String :=
  match headerGet req "x-forwarded-for" with
  | some fwd =>
      if fwd ≠ "" then pyStrip (pyFirstToken fwd)
      else match headerGet req "x-real-ip" with
        | some real => if real ≠ "" then real else (req.client).getD "unknown"
        | none => (req.client).getD "unknown"
  | none =>
      match headerGet req "x-real-ip" with
      | some real => if real ≠ "" then real else (req.client).getD "unknown"
      | none => (req.client).getD "unknown"

/-- `request.state` as this code uses it: each field is absent until the
corresponding middleware writes it. `duration_ms` is stored in ticks of
0.01 ms (see the module comment). -/
structure ReqState where
  trace_id : Option String
  duration_ms : Option Nat
  client_ip : Option String
  user_agent : Option String
  deriving DecidableEq, Repr

/-- The empty `request.state` at request entry. -/
def ReqState.init : ReqState :=
  { trace_id := none, duration_ms := none, client_ip := none
    user_agent := none }

/-- `AppExceptionsError` (`src/core/exceptions.py`) after construction. -/
structure AppError where
  message : String
  status_code : Nat
  context : List (String × PyVal)
  trace_id : String
  deriving DecidableEq, Repr

/-- The `context` argument of `AppExceptionsError.__init__`: a dict, `None`,
or some other (non-dict, non-None) value — mirroring the
`isinstance(context, dict)` / `context is None` / `else` dispatch. -/
inductive CtxArg where
  | dict (m : List (String × PyVal))
  | val (v : PyVal)
  | omitted
  deriving DecidableEq, Repr

/-- `AppExceptionsError.__init__`: `message or default` and
`status_code or 500` and `trace_id or str(uuid4())` use Python
truthiness (empty string and 0 fall back); the context is normalized to a
dict. `fresh` models the `str(uuid4())` call. -/
def AppError.init (message : Option String) (status_code : Option Nat)
    (context : CtxArg) (trace_id : Option String) (fresh : String) :
    AppError :=
  { message :=
      match message with
      | some m => if m = "" then "An application error occurred" else m
      | none => "An application error occurred"
    status_code :=
      match status_code with
      | some c => if c = 0 then 500 else c
      | none => 500
    context :=
      match context with
      | .dict m => m
      | .omitted => []
      | .val v => [("detail", v)]
    trace_id :=
      match trace_id with
      | some t => if t = "" then fresh else t
      | none => fresh }

/-- `AppExceptionsError.to_dict`. -/
def AppError.to_dict (e : AppError) : List (String × JV) :=
  [("message", .prim (.pstr e.message)),
   ("status_code", .prim (.pint e.status_code)),
   ("context", .dict e.context),
   ("trace_id", .prim (.pstr e.trace_id))]

/-- A raised failure: either an `AppExceptionsError` (already constructed)
or any other exception, carried as its class name and its `str(exc)`. -/
inductive Failure where
  | structured (e : AppError)
  | unstructured (typeName : String) (msg : String)
  deriving DecidableEq, Repr

/-- `exc.__class__.__name__`. -/
def Failure.typeName : Failure → String
  | .structured _ => "AppExceptionsError"
  | .unstructured t _ => t

/-- Which call site emitted a log entry (the three `logger.bind(...)`
sites of the pipeline). -/
inductive LogSrc where
  | requestLogging
  | appHandler
  | unhandledHandler
  deriving DecidableEq, Repr

/-- The `status` value bound by `RequestLoggingMiddleware`: the response's
status code, or the literal string `"error"` when no response exists. -/
inductive StatusV where
  | code (n : Nat)
  | errorMarker
  deriving DecidableEq, Repr

/-- One structured log entry: the fields bound via `logger.bind(...)` at
the three logging sites, plus (for the request-logging site) the duration
that the message text formats with `getattr(request.state, 'duration_ms',
0)`. Fields a site does not bind are `none`. -/
structure LogEntry where
  src : LogSrc
  level : String
  trace_id : Option String
  duration_ms : Option Nat
  client_ip : Option String
  user_agent : Option String
  status : Option StatusV
  method : String
  path : String
  msgDuration : Option Nat
  deriving DecidableEq, Repr

/-- An HTTP response as this code manipulates it: status, headers, and —
for responses built by the exception handlers — the fields of the
`{"error": ...}` JSON envelope. Responses returned by application
endpoints carry `error_body := none`. -/
structure Response where
  status : Nat
  headers : List (String × String)
  error_body : Option (List (String × JV))
  deriving DecidableEq, Repr

/-- `response.headers[k] = v`: replace any existing value under `k`. -/
def Response.setHeader (r : Response) (k v : String) : Response :=
  { r with headers := r.headers.filter (fun p => p.1 ≠ k) ++ [(k, v)] }

/-- Read a response header. -/
def Response.getHeader (r : Response) (k : String) : Option String :=
  r.headers.lookup k

/-- Read a field of the `{"error": ...}` JSON body. -/
def Response.errorField (r : Response) (k : String) : Option JV :=
  r.error_body.bind (fun m => m.lookup k)

/-- Two-digit zero-padding of a value below 100. -/
def pad2 (n : Nat) : String :=
  if n < 10 then "0" ++ toString n else toString n

/-- `f"{duration:.2f}ms"` on a duration held in 0.01 ms ticks: the integer
millisecond part, a dot, exactly two fractional digits, and the `ms`
suffix. -/
def fmtProcessTime (d : Nat) : String :=
  toString (d / 100) ++ "." ++ pad2 (d % 100) ++ "ms"

/-- The shape claimed for `X-Process-Time` values: a non-negative float
rendered with two decimal places, followed by the literal `ms`. -/
def twoDecimalMsPattern (s : String) : Prop :=
  ∃ whole frac : Nat, frac < 100 ∧
    s = toString whole ++ "." ++ pad2 frac ++ "ms"

/-- `app_exception_handler` (`src/core/exceptions.py`): resolve the trace
id from `request.state` with the error's own id as fallback, overwrite
the error's id, log at `ERROR`, build headers (adding `X-Process-Time`
only when the state has a duration), and answer with the error's status
and `{"error": exc.to_dict()}`. Returns the mutated error, the log entry
and the response. -/
def app_exception_handler (req : RequestInfo) (st : ReqState)
    (exc : AppError) : AppError × LogEntry × Response :=
  let trace_id := st.trace_id.getD exc.trace_id
  let exc' := { exc with trace_id := trace_id }
  let entry : LogEntry :=
    { src := .appHandler, level := "ERROR", trace_id := some trace_id
      duration_ms := st.duration_ms, client_ip := st.client_ip
      user_agent := st.user_agent, status := none, method := req.method
      path := req.path, msgDuration := none }
  let headers :=
    [("X-Trace-ID", trace_id)] ++
      match st.duration_ms with
      | some d => [("X-Process-Time", fmtProcessTime d)]
      | none => []
  (exc', entry,
    { status := exc'.status_code, headers := headers
      error_body := some exc'.to_dict })

/-- `unhandled_exception_handler` (`src/core/exceptions.py`): resolve the
trace id from `request.state`, falling back to a fresh `str(uuid4())`;
log at `ERROR`; answer 500 with the fixed generic envelope
`{"message": "Internal server error", "type": exc.__class__.__name__,
"trace_id": <resolved>}`. -/
def unhandled_exception_handler (req : RequestInfo) (st : ReqState)
    (exc : Failure) (fresh : String) : LogEntry × Response :=
  let trace_id := st.trace_id.getD fresh
  let entry : LogEntry :=
    { src := .unhandledHandler, level := "ERROR", trace_id := some trace_id
      duration_ms := st.duration_ms, client_ip := st.client_ip
      user_agent := st.user_agent, status := none, method := req.method
      path := req.path, msgDuration := none }
  let headers :=
    [("X-Trace-ID", trace_id)] ++
      match st.duration_ms with
      | some d => [("X-Process-Time", fmtProcessTime d)]
      | none => []
  (entry,
    { status := 500, headers := headers
      error_body := some
        [("message", .prim (.pstr "Internal server error")),
         ("type", .prim (.pstr exc.typeName)),
         ("trace_id", .prim (.pstr trace_id))] })

/-- The result of one layer of the chain handling a request: the state and
accumulated log entries, and either a response or a propagating failure. -/
structure StepResult where
  state : ReqState
  logs : List LogEntry
  outcome : Except Failure Response
  deriving Repr

/-- A request handler / middleware stage: threads `request.state` and the
log stream, and either returns a response or propagates a failure. -/
def Handler : Type :=
  RequestInfo → ReqState → List LogEntry → StepResult

/-- `TraceIDMiddleware.dispatch`: store a fresh uuid in the state, call
downstream, and on a normal return set the `X-Trace-ID` response header.
On a propagating failure the header line is never reached. `uuid` models
the `str(uuid4())` call. -/
def traceIDMiddleware (uuid : String) (nxt : Handler) : Handler :=
  fun req st logs =>
    let r := nxt req { st with trace_id := some uuid } logs
    match r.outcome with
    | .ok resp =>
        { r with outcome := .ok (resp.setHeader "X-Trace-ID" uuid) }
    | .error _ => r

/-- `RequestTimingMiddleware.dispatch`: read the clock, call downstream,
and on both the exception path and the normal path write the elapsed
duration into the state; only on the normal path set the
`X-Process-Time` header. `t0` and `t1` model the two `perf_counter()`
reads (in 0.01 ms ticks; `perf_counter` is monotonic, modelled by Nat
subtraction never going below zero). -/
def requestTimingMiddleware (t0 t1 : Nat) (nxt : Handler) : Handler :=
  fun req st logs =>
    let r := nxt req st logs
    let duration := t1 - t0
    match r.outcome with
    | .error f =>
        { r with state := { r.state with duration_ms := some duration }
                 outcome := .error f }
    | .ok resp =>
        { r with state := { r.state with duration_ms := some duration }
                 outcome := .ok
                   (resp.setHeader "X-Process-Time"
                     (fmtProcessTime duration)) }

/-- `ClientInfoMiddleware.dispatch`: write `client_ip` and `user_agent`
into the state, then call downstream unconditionally. -/
def clientInfoMiddleware (nxt : Handler) : Handler :=
  fun req st logs =>
    nxt req
      { st with client_ip := some (ClientInfoMiddleware.get_ip req)
                user_agent := some (ClientInfoMiddleware.get_user_agent req) }
      logs

/-- `RequestLoggingMiddleware.dispatch`: call downstream inside a
try/finally; in the `finally` block emit exactly one log entry reading
whatever the inner stages left in the state, with `status` the response's
code or the literal `"error"` marker when no response was produced, then
return the response or re-propagate the failure. -/
def requestLoggingMiddleware (nxt : Handler) : Handler :=
  fun req st logs =>
    let r := nxt req st logs
    let status : StatusV :=
      match r.outcome with
      | .ok resp => .code resp.status
      | .error _ => .errorMarker
    let entry : LogEntry :=
      { src := .requestLogging, level := "INFO"
        trace_id := r.state.trace_id, duration_ms := r.state.duration_ms
        client_ip := r.state.client_ip, user_agent := r.state.user_agent
        status := some status, method := req.method, path := req.path
        msgDuration := some (r.state.duration_ms.getD 0) }
    { r with logs := r.logs ++ [entry] }

/-- Starlette's `ExceptionMiddleware`, the innermost layer of the stack:
failures of a registered type — here `AppExceptionsError`, registered in
`src/main.py` — are converted by their handler into a response; all other
failures propagate. -/
def exceptionMiddleware (nxt : Handler) : Handler :=
  fun req st logs =>
    let r := nxt req st logs
    match r.outcome with
    | .error (.structured e) =>
        let (_, entry, resp) := app_exception_handler req r.state e
        { r with logs := r.logs ++ [entry], outcome := .ok resp }
    | _ => r

/-- Starlette's `ServerErrorMiddleware`, the outermost layer: any failure
still propagating is converted by the handler registered for `Exception`
— here `unhandled_exception_handler` — so a response always results. -/
def serverErrorMiddleware (fresh : String) (nxt : Handler) :
    RequestInfo → ReqState → List LogEntry →
      ReqState × List LogEntry × Response :=
  fun req st logs =>
    let r := nxt req st logs
    match r.outcome with
    | .ok resp => (r.state, r.logs, resp)
    | .error f =>
        let (entry, resp) := unhandled_exception_handler req r.state f fresh
        (r.state, r.logs ++ [entry], resp)

/-- The four user middlewares of `src/main.py`. -/
inductive MW where
  | traceID
  | timing
  | clientInfo
  | logging
  deriving DecidableEq, Repr

/-- Starlette's `app.add_middleware`: the new middleware is inserted at the
front of the user-middleware list, so the middleware added last ends up
outermost ("last added wraps first"). -/
def add_middleware (stack : List MW) (m : MW) : List MW :=
  m :: stack

/-- The user-middleware stack built by `src/main.py` lines 25-28, listed
outermost first. -/
def mainAppMiddleware : List MW :=
  add_middleware
    (add_middleware
      (add_middleware
        (add_middleware [] .traceID)
        .timing)
      .clientInfo)
    .logging

/-- Interpret one middleware of the stack. -/
def applyMW (uuid : String) (t0 t1 : Nat) : MW → Handler → Handler
  | .traceID => traceIDMiddleware uuid
  | .timing => requestTimingMiddleware t0 t1
  | .clientInfo => clientInfoMiddleware
  | .logging => requestLoggingMiddleware

/-- Wrap `inner` in a middleware list given outermost first. -/
def buildStack (uuid : String) (t0 t1 : Nat) (ms : List MW)
    (inner : Handler) : Handler :=
  ms.foldr (applyMW uuid t0 t1) inner

/-- What the application endpoint does on this request: return a response,
or raise a failure. -/
inductive Outcome where
  | ok (r : Response)
  | err (f : Failure)
  deriving Repr

/-- The endpoint as the innermost handler. -/
def endpointHandler (o : Outcome) : Handler :=
  fun _ st logs =>
    { state := st, logs := logs
      outcome :=
        match o with
        | .ok r => .ok r
        | .err f => .error f }

/-- The result of a full request through the application. -/
structure RunResult where
  state : ReqState
  logs : List LogEntry
  response : Response
  deriving Repr

/-- One request through the full `src/main.py` application: Starlette's
`ServerErrorMiddleware` (holding the `Exception` handler), then the four
user middlewares in their actual wrapping order, then
`ExceptionMiddleware` (holding the `AppExceptionsError` handler), then
the endpoint. -/
def runMain (uuid fresh : String) (t0 t1 : Nat) (o : Outcome)
    (req : RequestInfo) : RunResult :=
  let inner := exceptionMiddleware (endpointHandler o)
  let stack := buildStack uuid t0 t1 mainAppMiddleware inner
  let (st, logs, resp) :=
    serverErrorMiddleware fresh stack req ReqState.init []
  { state := st, logs := logs, response := resp }

/-- C5, counterexample: with `X-Forwarded-For: ", 5.6.7.6"` (present and
non-empty, but with an empty first token) and `X-Real-IP: "9.9.9.9"`, the
code returns the empty first token verbatim, while the claimed precedence
(fall back to `X-Real-IP` when the token is empty) yields `"9.9.9.9"`. -/
theorem client_ip_claim_counterexample :
    ClientInfoMiddleware.get_ip
        { method := "GET", path := "/t"
          headers := [("x-forwarded-for", ", 5.6.7.6"),
                      ("x-real-ip", "9.9.9.9")]
          client := some "7.7.7.7" } = "" ∧
    client_ip_claimed
        { method := "GET", path := "/t"
          headers := [("x-forwarded-for", ", 5.6.7.6"),
                      ("x-real-ip", "9.9.9.9")]
          client := some "7.7.7.7" } = "9.9.9.9" ∧
    ClientInfoMiddleware.get_ip
        { method := "GET", path := "/t"
          headers := [("x-forwarded-for", ", 5.6.7.6"),
                      ("x-real-ip", "9.9.9.9")]
          client := some "7.7.7.7" } ≠
      client_ip_claimed
        { method := "GET", path := "/t"
          headers := [("x-forwarded-for", ", 5.6.7.6"),
                      ("x-real-ip", "9.9.9.9")]
          client := some "7.7.7.7" } := by
  refine ⟨by decide, by decide, by decide⟩

/-- C5, amended: the `X-Forwarded-For` branch is selected on the header
being present and non-empty (Python truthiness), and then yields the first
comma token trimmed even when that token is empty; `X-Real-IP` is used
when present and non-empty; else the peer address; else `"unknown"`.
`user_agent` is the `User-Agent` header verbatim or `"unknown"` when
absent, and the middleware stores both and invokes downstream
unconditionally. -/
theorem client_ip_precedence_amended (req : RequestInfo) :
    ClientInfoMiddleware.get_ip req = client_ip_amended req ∧
    ∀ (nxt : Handler) (st : ReqState) (logs : List LogEntry),
      clientInfoMiddleware nxt req st logs =
        nxt req
          { st with client_ip := some (client_ip_amended req)
                    user_agent :=
                      some ((headerGet req "user-agent").getD "unknown") }
          logs := by
  have hip : ClientInfoMiddleware.get_ip req = client_ip_amended req := by
    unfold ClientInfoMiddleware.get_ip client_ip_amended
    cases hf : headerGet req "x-forwarded-for" with
    | none =>
        simp only [Option.getD_none, Option.getD_some]
        cases hr : headerGet req "x-real-ip" <;> simp
    | some fwd =>
        by_cases hfe : fwd = ""
        · subst hfe
          simp only [Option.getD_some, ne_eq, not_true_eq_false, if_neg,
            ite_false]
          cases hr : headerGet req "x-real-ip" <;> simp
        · simp [hfe]
  refine ⟨hip, fun nxt st logs => ?_⟩
  show nxt req
      { st with client_ip := some (ClientInfoMiddleware.get_ip req)
                user_agent :=
                  some (ClientInfoMiddleware.get_user_agent req) } logs = _
  rw [hip]
  rfl

/-- C8, counterexample: a METRIC-level message whose `value` entry is the
non-numeric string `"oops"` is claimed to leave the store unchanged, but
the code checks only the presence of the `value` key and appends the
sample. -/
theorem metrics_record_numeric_counterexample :
    MetricsCollector.call (MetricsCollector.init 10000)
        { levelName := "METRIC"
          extra := [("metric_name", .pstr "x"), ("value", .pstr "oops")]
          time := 7 } ≠ MetricsCollector.init 10000 ∧
    (MetricsCollector.call (MetricsCollector.init 10000)
        { levelName := "METRIC"
          extra := [("metric_name", .pstr "x"), ("value", .pstr "oops")]
          time := 7 }).metrics =
      [(.pstr "x", [{ value := .pstr "oops", timestamp := 7 }])] := by
  refine ⟨by decide, by decide⟩

/-- C8, amended: `record` is a no-op unless the level equals METRIC and the
extra mapping contains entries under both the metric-name and value keys;
the value's numeric type is not checked. When the conditions hold it
appends `{value, timestamp: now}` to that name's bounded sequence. -/
theorem metrics_record_characterization (c : MetricsCollector)
    (msg : Record) :
    (msg.levelName ≠ "METRIC" → MetricsCollector.call c msg = c) ∧
    (msg.extra.lookup "metric_name" = none ∨
        msg.extra.lookup "value" = none →
      MetricsCollector.call c msg = c) ∧
    (∀ name v, msg.extra.lookup "metric_name" = some name →
      msg.extra.lookup "value" = some v →
      msg.levelName = "METRIC" →
      MetricsCollector.call c msg =
        { c with
          metrics := assocUpdate c.metrics name
            (fun q => dequeAppend c.max_metrics_per_type q
              { value := v, timestamp := msg.time }) }) := by
  refine ⟨fun h => ?_, fun h => ?_, fun name v hn hv hl => ?_⟩
  · simp [MetricsCollector.call, h]
  · unfold MetricsCollector.call
    rcases h with h | h
    · simp [h]
    · rw [h]
      cases hm : msg.extra.lookup "metric_name" <;> simp [hm]
  · simp [MetricsCollector.call, hn, hv, hl]

/-- C8, amended, witness: a concrete METRIC message with both keys present
is appended. -/
theorem metrics_record_characterization_witness :
    MetricsCollector.call (MetricsCollector.init 3)
        { levelName := "METRIC"
          extra := [("metric_name", .pstr "x"), ("value", .pint 5)]
          time := 7 } =
      { max_metrics_per_type := 3
        metrics := [(.pstr "x", [{ value := .pint 5, timestamp := 7 }])] } := by
  have h :=
    (metrics_record_characterization (MetricsCollector.init 3)
        { levelName := "METRIC"
          extra := [("metric_name", .pstr "x"), ("value", .pint 5)]
          time := 7 }).2.2 (.pstr "x") (.pint 5) (by decide) (by decide) rfl
  exact h.trans (by decide)

/-- C9: `AppExceptionsError.__init__` normalizes the context argument: a
dict is stored as given (the shallow copy is the identity in this pure
model); `None`/absence yields the empty dict; any other value is wrapped
as `{"detail": value}`. -/
theorem app_error_context_normalized (message : Option String)
    (sc : Option Nat) (tid : Option String) (fresh : String)
    (m : List (String × PyVal)) (v : PyVal) :
    (AppError.init message sc (.dict m) tid fresh).context = m ∧
    (AppError.init message sc .omitted tid fresh).context = [] ∧
    (AppError.init message sc (.val v) tid fresh).context =
      [("detail", v)] :=
  ⟨rfl, rfl, rfl⟩

/-- Looking a key up past a prefix none of whose pairs carries that key. -/
theorem lookup_append_of_keys_ne (k : String) (l rest : List (String × String))
    (h : ∀ p ∈ l, p.1 ≠ k) :
    (l ++ rest).lookup k = rest.lookup k := by
  induction l with
  | nil => rfl
  | cons a l ih =>
      obtain ⟨a1, a2⟩ := a
      have ha : (k == a1) = false := by
        have := h (a1, a2) (List.mem_cons_self _ _)
        simp only [beq_eq_false_iff_ne, ne_eq]
        intro hk
        exact this hk.symm
      simp only [List.cons_append, List.lookup, ha]
      exact ih (fun p hp => h p (List.mem_cons_of_mem _ hp))

/-- Setting a header leaves the status untouched. -/
theorem setHeader_status (r : Response) (k v : String) :
    (r.setHeader k v).status = r.status := rfl

/-- Setting a header leaves the JSON body untouched. -/
theorem setHeader_error_body (r : Response) (k v : String) :
    (r.setHeader k v).error_body = r.error_body := rfl

/-- A bounded append never grows past the capacity. -/
theorem dequeAppend_length_le (N : Nat) (q : List Sample) (x : Sample)
    (h : q.length ≤ N) : (dequeAppend N q x).length ≤ N := by
  unfold dequeAppend
  by_cases hlt : N < (q ++ [x]).length
  · simp only [hlt, if_true]
    rw [List.length_drop]
    omega
  · simp only [hlt, if_false]
    simp only [List.length_append, List.length_singleton] at hlt ⊢
    omega

/-- Folding bounded appends over a list keeps exactly the most recent `N`
elements of the accumulated stream: the FIFO eviction law in closed
form. -/
theorem dequeAppend_foldl (N : Nat) :
    ∀ (xs q : List Sample), q.length ≤ N →
      xs.foldl (dequeAppend N) q =
        (q ++ xs).drop ((q.length + xs.length) - N) := by
  intro xs
  induction xs with
  | nil =>
      intro q hq
      simp [Nat.sub_eq_zero_of_le hq]
  | cons x xs ih =>
      intro q hq
      rw [List.foldl_cons,
        ih (dequeAppend N q x) (dequeAppend_length_le N q x hq)]
      by_cases hlt : N < (q ++ [x]).length
      · have hql : q.length = N := by
          simp only [List.length_append, List.length_singleton] at hlt
          omega
        have hd : dequeAppend N q x = (q ++ [x]).drop 1 := by
          unfold dequeAppend
          simp only [if_pos hlt]
          congr 1
          simp [hql]
        have hdlen : (dequeAppend N q x).length = N := by
          rw [hd, List.length_drop]
          simp [hql]
        rw [hdlen, hd]
        have h1 : N + xs.length - N = xs.length := by omega
        have h2 : q.length + (x :: xs).length - N = xs.length + 1 := by
          simp only [List.length_cons]
          omega
        rw [h1, h2]
        rw [← List.drop_append_of_le_length
          (by simp : 1 ≤ (q ++ [x]).length)]
        rw [List.drop_drop]
        congr 1
        · omega
        · simp
      · have hd : dequeAppend N q x = q ++ [x] := by
          unfold dequeAppend
          simp only [if_neg hlt]
        rw [hd]
        have h3 : (q ++ [x]).length = q.length + 1 := by simp
        rw [h3, List.append_assoc]
        simp only [List.singleton_append]
        congr 1
        simp only [List.length_cons]
        omega

/-- Feeding METRIC messages that all carry the same metric name into a
collector holding only that name folds their samples into its deque. -/
theorem recordAll_same_name (N : Nat) (name : PyVal) :
    ∀ (vts : List (PyVal × Nat)) (q : List Sample),
      recordAll { max_metrics_per_type := N, metrics := [(name, q)] }
          (vts.map (metricMsg name)) =
        { max_metrics_per_type := N
          metrics := [(name,
            vts.foldl
              (fun acc vt => dequeAppend N acc
                { value := vt.1, timestamp := vt.2 }) q)] } := by
  intro vts
  induction vts with
  | nil => intro q; rfl
  | cons vt vts ih =>
      intro q
      have hstep :
          MetricsCollector.call
              { max_metrics_per_type := N, metrics := [(name, q)] }
              (metricMsg name vt) =
            { max_metrics_per_type := N
              metrics := [(name, dequeAppend N q
                { value := vt.1, timestamp := vt.2 })] } := by
        simp [MetricsCollector.call, metricMsg, assocUpdate, List.lookup]
      simp only [List.map_cons, recordAll, List.foldl_cons]
      rw [show (List.foldl MetricsCollector.call
          (MetricsCollector.call
            { max_metrics_per_type := N, metrics := [(name, q)] }
            (metricMsg name vt))
          (vts.map (metricMsg name))) = recordAll
            (MetricsCollector.call
              { max_metrics_per_type := N, metrics := [(name, q)] }
              (metricMsg name vt))
            (vts.map (metricMsg name)) from rfl]
      rw [hstep, ih]

/-- C1, counterexample: in `src/main.py` the middleware added last wraps
first, so the actual chain is Logging, then Client Identity, then Timing,
with Trace Identity — not Timing — the innermost pre-body middleware; and
on a concrete structured-error request the Error Normalizer's own log
binding shows `duration_ms` absent, so the duration is *not* populated
before the Error Normalizer reads it. -/
theorem middleware_order_as_claimed_false :
    mainAppMiddleware ≠ [MW.logging, MW.traceID, MW.timing, MW.clientInfo] ∧
    mainAppMiddleware.getLast? = some MW.traceID ∧
    ((runMain "u-mid" "u-f" 100 350
        (.err (.structured (AppError.init (some "Not found") (some 404)
          .omitted none "u-exc")))
        { method := "GET", path := "/t", headers := [("user-agent", "ua1")]
          client := some "1.1.1.1" }).logs.filter
        (fun en => en.src = LogSrc.appHandler)) =
      [{ src := .appHandler, level := "ERROR", trace_id := some "u-mid"
         duration_ms := none, client_ip := some "1.1.1.1"
         user_agent := some "ua1", status := none, method := "GET"
         path := "/t", msgDuration := none }] := by
  refine ⟨by decide, by decide, by decide⟩

/-- C1, amended: the chain executes with Request Logging outermost, then
Client Identity, then Timing, then Trace Identity innermost. Trace id and
client identity are populated before the structured Error Normalizer and
the Logging middleware read them; the duration is populated before the
Logging middleware and the unstructured-failure handler read it, but not
before the structured-error handler, which runs inside the Timing
middleware and therefore sees no duration. -/
theorem middleware_order_and_context_population (uuid fresh : String)
    (t0 t1 : Nat) (req : RequestInfo) (e : AppError) (t m : String) :
    mainAppMiddleware = [MW.logging, MW.clientInfo, MW.timing, MW.traceID] ∧
    (runMain uuid fresh t0 t1 (.err (.structured e)) req).logs.filter
        (fun en => en.src = LogSrc.appHandler) =
      [{ src := .appHandler, level := "ERROR", trace_id := some uuid
         duration_ms := none
         client_ip := some (ClientInfoMiddleware.get_ip req)
         user_agent := some (ClientInfoMiddleware.get_user_agent req)
         status := none, method := req.method, path := req.path
         msgDuration := none }] ∧
    (runMain uuid fresh t0 t1 (.err (.structured e)) req).logs.filter
        (fun en => en.src = LogSrc.requestLogging) =
      [{ src := .requestLogging, level := "INFO", trace_id := some uuid
         duration_ms := some (t1 - t0)
         client_ip := some (ClientInfoMiddleware.get_ip req)
         user_agent := some (ClientInfoMiddleware.get_user_agent req)
         status := some (.code e.status_code), method := req.method
         path := req.path, msgDuration := some (t1 - t0) }] ∧
    (runMain uuid fresh t0 t1 (.err (.unstructured t m)) req).logs.filter
        (fun en => en.src = LogSrc.unhandledHandler) =
      [{ src := .unhandledHandler, level := "ERROR", trace_id := some uuid
         duration_ms := some (t1 - t0)
         client_ip := some (ClientInfoMiddleware.get_ip req)
         user_agent := some (ClientInfoMiddleware.get_user_agent req)
         status := none, method := req.method, path := req.path
         msgDuration := none }] := by
  refine ⟨rfl, ?_, ?_, ?_⟩
  · simp [runMain, buildStack, mainAppMiddleware, add_middleware, applyMW,
      serverErrorMiddleware, requestLoggingMiddleware, clientInfoMiddleware,
      requestTimingMiddleware, traceIDMiddleware, exceptionMiddleware,
      endpointHandler, app_exception_handler, ReqState.init, List.filter]
  · simp [runMain, buildStack, mainAppMiddleware, add_middleware, applyMW,
      serverErrorMiddleware, requestLoggingMiddleware, clientInfoMiddleware,
      requestTimingMiddleware, traceIDMiddleware, exceptionMiddleware,
      endpointHandler, app_exception_handler, ReqState.init, List.filter,
      setHeader_status]
  · simp [runMain, buildStack, mainAppMiddleware, add_middleware, applyMW,
      serverErrorMiddleware, requestLoggingMiddleware, clientInfoMiddleware,
      requestTimingMiddleware, traceIDMiddleware, exceptionMiddleware,
      endpointHandler, unhandled_exception_handler, ReqState.init,
      List.filter]

/-- C2: the structured-error handler resolves the authoritative trace id
as the request context's trace id when present, falling back to the
error's own id; it overwrites the error's id with the resolved value, and
the `X-Trace-ID` header and the body's `trace_id` both carry it. Through
the full application stack, both equal the id the Trace Identity
middleware stored in the context. -/
theorem structured_error_trace_id_consistent (req : RequestInfo)
    (st : ReqState) (exc : AppError) (uuid fresh : String) (t0 t1 : Nat) :
    ((app_exception_handler req st exc).2.2).getHeader "X-Trace-ID" =
        some (st.trace_id.getD exc.trace_id) ∧
    ((app_exception_handler req st exc).2.2).errorField "trace_id" =
        some (.prim (.pstr (st.trace_id.getD exc.trace_id))) ∧
    ((app_exception_handler req st exc).1).trace_id =
        st.trace_id.getD exc.trace_id ∧
    (runMain uuid fresh t0 t1 (.err (.structured exc)) req).response.getHeader
        "X-Trace-ID" = some uuid ∧
    (runMain uuid fresh t0 t1 (.err (.structured exc)) req).response.errorField
        "trace_id" = some (.prim (.pstr uuid)) := by
  refine ⟨?_, ?_, rfl, ?_, ?_⟩
  · cases h : st.duration_ms <;>
      simp [app_exception_handler, Response.getHeader, h, List.lookup]
  · simp [app_exception_handler, Response.errorField, AppError.to_dict,
      List.lookup]
  · simp [runMain, buildStack, mainAppMiddleware, add_middleware, applyMW,
      serverErrorMiddleware, requestLoggingMiddleware, clientInfoMiddleware,
      requestTimingMiddleware, traceIDMiddleware, exceptionMiddleware,
      endpointHandler, app_exception_handler, ReqState.init,
      Response.setHeader, Response.getHeader, List.lookup, List.filter]
  · simp [runMain, buildStack, mainAppMiddleware, add_middleware, applyMW,
      serverErrorMiddleware, requestLoggingMiddleware, clientInfoMiddleware,
      requestTimingMiddleware, traceIDMiddleware, exceptionMiddleware,
      endpointHandler, app_exception_handler, ReqState.init,
      setHeader_error_body, Response.errorField, AppError.to_dict,
      List.lookup]

/-- C3: the unstructured-failure handler answers HTTP 500 with the fixed
generic envelope: the body `message` is the literal
`"Internal server error"` and never the failure's own message, the
failure's class name appears in the `type` field, and `trace_id` is the
resolved id. -/
theorem unhandled_error_body_generic (req : RequestInfo) (st : ReqState)
    (t m fresh : String) (hm : m ≠ "Internal server error") :
    ((unhandled_exception_handler req st (.unstructured t m) fresh).2).status
        = 500 ∧
    ((unhandled_exception_handler req st (.unstructured t m) fresh).2).errorField
        "message" = some (.prim (.pstr "Internal server error")) ∧
    ((unhandled_exception_handler req st (.unstructured t m) fresh).2).errorField
        "type" = some (.prim (.pstr t)) ∧
    ((unhandled_exception_handler req st (.unstructured t m) fresh).2).errorField
        "trace_id" =
      some (.prim (.pstr (st.trace_id.getD fresh))) ∧
    ((unhandled_exception_handler req st (.unstructured t m) fresh).2).errorField
        "message" ≠ some (.prim (.pstr m)) := by
  refine ⟨rfl, ?_, ?_, ?_, ?_⟩
  · simp [unhandled_exception_handler, Response.errorField, List.lookup]
  · simp [unhandled_exception_handler, Response.errorField, List.lookup,
      Failure.typeName]
  · simp [unhandled_exception_handler, Response.errorField, List.lookup]
  · simp only [unhandled_exception_handler, Response.errorField, List.lookup]
    intro hcontra
    simp at hcontra
    exact hm hcontra.symm

/-- C3, witness: the `"boom"` scenario at concrete inputs. -/
theorem unhandled_error_body_generic_witness :
    ("boom" : String) ≠ "Internal server error" ∧
    ((unhandled_exception_handler
        { method := "GET", path := "/t", headers := [], client := none }
        ReqState.init (.unstructured "RuntimeError" "boom") "u1").2).errorField
        "message" ≠ some (.prim (.pstr "boom")) :=
  ⟨by decide,
    (unhandled_error_body_generic
      { method := "GET", path := "/t", headers := [], client := none }
      ReqState.init "RuntimeError" "boom" "u1" (by decide)).2.2.2.2⟩

/-- C4: on every request through the full stack — success, structured
error, or unstructured failure — the final response carries an
`X-Process-Time` header equal to the measured duration rendered with two
decimal places and the `ms` suffix, which matches the claimed pattern. -/
theorem process_time_header_present_and_formatted (uuid fresh : String)
    (t0 t1 : Nat) (req : RequestInfo) (o : Outcome) :
    (runMain uuid fresh t0 t1 o req).response.getHeader "X-Process-Time" =
      some (fmtProcessTime (t1 - t0)) ∧
    twoDecimalMsPattern (fmtProcessTime (t1 - t0)) := by
  constructor
  · cases o with
    | ok r =>
        simp only [runMain, buildStack, mainAppMiddleware, add_middleware,
          applyMW, List.foldr, serverErrorMiddleware,
          requestLoggingMiddleware, clientInfoMiddleware,
          requestTimingMiddleware, traceIDMiddleware, exceptionMiddleware,
          endpointHandler, ReqState.init, Response.setHeader,
          Response.getHeader]
        rw [lookup_append_of_keys_ne]
        · simp [List.lookup]
        · intro p hp
          rw [List.mem_filter] at hp
          have h1 := hp.2
          simp only [decide_eq_true_eq] at h1
          exact h1
    | err f =>
        cases f with
        | structured e =>
            simp [runMain, buildStack, mainAppMiddleware, add_middleware,
              applyMW, serverErrorMiddleware, requestLoggingMiddleware,
              clientInfoMiddleware, requestTimingMiddleware,
              traceIDMiddleware, exceptionMiddleware, endpointHandler,
              app_exception_handler, ReqState.init, Response.setHeader,
              Response.getHeader, List.lookup, List.filter]
        | unstructured t m =>
            simp [runMain, buildStack, mainAppMiddleware, add_middleware,
              applyMW, serverErrorMiddleware, requestLoggingMiddleware,
              clientInfoMiddleware, requestTimingMiddleware,
              traceIDMiddleware, exceptionMiddleware, endpointHandler,
              unhandled_exception_handler, ReqState.init,
              Response.setHeader, Response.getHeader, List.lookup,
              List.filter]
  · exact ⟨(t1 - t0) / 100, (t1 - t0) % 100,
      Nat.mod_lt _ (by omega), rfl⟩

/-- C6: through the full stack, the Request Logging middleware emits
exactly one log entry per request — whether the endpoint returns, raises
a structured error, or raises an unstructured failure — carrying trace
id, the bound duration and the message duration (which would be 0 were
the duration absent), client ip, user agent, the resulting status code
(the literal `"error"` marker when no response reached it), method and
path. -/
theorem request_logging_exactly_one_entry (uuid fresh : String)
    (t0 t1 : Nat) (req : RequestInfo) (o : Outcome) :
    (runMain uuid fresh t0 t1 o req).logs.filter
        (fun en => en.src = LogSrc.requestLogging) =
      [{ src := .requestLogging, level := "INFO", trace_id := some uuid
         duration_ms := some (t1 - t0)
         client_ip := some (ClientInfoMiddleware.get_ip req)
         user_agent := some (ClientInfoMiddleware.get_user_agent req)
         status := some
           (match o with
            | .ok r => .code r.status
            | .err (.structured e) => .code e.status_code
            | .err (.unstructured _ _) => .errorMarker)
         method := req.method, path := req.path
         msgDuration := some (t1 - t0) }] := by
  cases o with
  | ok r =>
      simp [runMain, buildStack, mainAppMiddleware, add_middleware, applyMW,
        serverErrorMiddleware, requestLoggingMiddleware,
        clientInfoMiddleware, requestTimingMiddleware, traceIDMiddleware,
        exceptionMiddleware, endpointHandler, ReqState.init, List.filter,
        setHeader_status]
  | err f =>
      cases f with
      | structured e =>
          simp [runMain, buildStack, mainAppMiddleware, add_middleware,
            applyMW, serverErrorMiddleware, requestLoggingMiddleware,
            clientInfoMiddleware, requestTimingMiddleware,
            traceIDMiddleware, exceptionMiddleware, endpointHandler,
            app_exception_handler, ReqState.init, List.filter,
            setHeader_status]
      | unstructured t m =>
          simp [runMain, buildStack, mainAppMiddleware, add_middleware,
            applyMW, serverErrorMiddleware, requestLoggingMiddleware,
            clientInfoMiddleware, requestTimingMiddleware,
            traceIDMiddleware, exceptionMiddleware, endpointHandler,
            unhandled_exception_handler, ReqState.init, List.filter]

/-- C7: recording `N + 5` METRIC samples under one name into a collector
with capacity `N` leaves exactly the `N` most recent samples under that
name — the 5 oldest are evicted in FIFO order. -/
theorem metrics_fifo_eviction (N : Nat) (name : PyVal)
    (vts : List (PyVal × Nat)) (h : vts.length = N + 5) :
    (recordAll (MetricsCollector.init N) (vts.map (metricMsg name))).metrics =
      [(name, (vts.map (fun vt =>
        ({ value := vt.1, timestamp := vt.2 } : Sample))).drop 5)] ∧
    ((vts.map (fun vt =>
        ({ value := vt.1, timestamp := vt.2 } : Sample))).drop 5).length
      = N := by
  constructor
  · have hne : vts ≠ [] := by
      intro hv
      rw [hv] at h
      simp at h
    obtain ⟨v, rest, rfl⟩ := List.exists_cons_of_ne_nil hne
    have hfirst :
        MetricsCollector.call (MetricsCollector.init N) (metricMsg name v) =
          { max_metrics_per_type := N
            metrics := [(name, dequeAppend N []
              { value := v.1, timestamp := v.2 })] } := by
      simp [MetricsCollector.call, MetricsCollector.init, metricMsg,
        assocUpdate, List.lookup]
    simp only [List.map_cons, recordAll, List.foldl_cons]
    rw [show (List.foldl MetricsCollector.call
        (MetricsCollector.call (MetricsCollector.init N) (metricMsg name v))
        (rest.map (metricMsg name))) = recordAll
          (MetricsCollector.call (MetricsCollector.init N)
            (metricMsg name v))
          (rest.map (metricMsg name)) from rfl]
    rw [hfirst, recordAll_same_name]
    have hfold :
        rest.foldl
            (fun acc vt => dequeAppend N acc
              { value := vt.1, timestamp := vt.2 })
            (dequeAppend N [] { value := v.1, timestamp := v.2 }) =
          ((v :: rest).map (fun vt =>
            ({ value := vt.1, timestamp := vt.2 } : Sample))).foldl
            (dequeAppend N) [] := by
      simp [List.foldl_map]
    have hlen : ((v :: rest).map (fun vt =>
        ({ value := vt.1, timestamp := vt.2 } : Sample))).length = N + 5 := by
      rw [List.length_map]
      exact h
    simp only [MetricsCollector.metrics]
    rw [hfold, dequeAppend_foldl N _ [] (by simp), List.nil_append]
    rw [List.length_nil, Nat.zero_add, hlen, Nat.add_sub_cancel_left]
    simp [List.map_cons]
  · rw [List.length_drop, List.length_map, h]
    omega

/-- C7, witness: capacity 2, 7 samples recorded, the last 2 remain. -/
theorem metrics_fifo_eviction_witness :
    ([((.pint 1 : PyVal), 11), (.pint 2, 12), (.pint 3, 13), (.pint 4, 14),
      (.pint 5, 15), (.pint 6, 16), (.pint 7, 17)]
        : List (PyVal × Nat)).length = 2 + 5 ∧
    (recordAll (MetricsCollector.init 2)
        (([((.pint 1 : PyVal), 11), (.pint 2, 12), (.pint 3, 13),
           (.pint 4, 14), (.pint 5, 15), (.pint 6, 16), (.pint 7, 17)]
            : List (PyVal × Nat)).map
          (metricMsg (.pstr "m")))).metrics =
      [(.pstr "m", [{ value := .pint 6, timestamp := 16 },
                    { value := .pint 7, timestamp := 17 }])] := by
  refine ⟨by decide, ?_⟩
  have hc := (metrics_fifo_eviction 2 (.pstr "m")
    [((.pint 1 : PyVal), 11), (.pint 2, 12), (.pint 3, 13), (.pint 4, 14),
     (.pint 5, 15), (.pint 6, 16), (.pint 7, 17)] (by decide)).1
  exact hc.trans (by decide)

/-- C10: on the unstructured-failure path the handler resolves one id —
the context's trace id when present, else a freshly generated value — and
uses that single id for both the `X-Trace-ID` header and the body's
`trace_id` field, so the pair never diverges. -/
theorem unhandled_trace_id_header_body_agree (req : RequestInfo)
    (st : ReqState) (exc : Failure) (fresh : String) :
    ((unhandled_exception_handler req st exc fresh).2).getHeader
        "X-Trace-ID" = some (st.trace_id.getD fresh) ∧
    ((unhandled_exception_handler req st exc fresh).2).errorField
        "trace_id" = some (.prim (.pstr (st.trace_id.getD fresh))) := by
  constructor
  · cases h : st.duration_ms <;>
      simp [unhandled_exception_handler, Response.getHeader, h, List.lookup]
  · simp [unhandled_exception_handler, Response.errorField, List.lookup]
